import Mathlib

/-!
# Verification of the YKMarketShift profile/scoring pipeline

This file gives a shallow embedding in Lean 4 of the data-merge / normalize /
score engine of `app.py` (the YKMarketShift Streamlit application) and proves
the frozen specification claims about it.

Conventions of the embedding:
* Python floats are modelled as real numbers (`ℝ`); `np.tanh` is `Real.tanh`,
  `np.clip` is `min (max · lo) hi`, and Python's `int()` applied to a float is
  truncation toward zero (`pyInt`).
* Python dictionaries holding possibly-`None` values are modelled as
  structures with `Option`-typed fields; `dict.get(k, d)` where the key may be
  absent is `Option.getD`.
* The three external fetchers are modelled as functions of an explicit
  response argument: the `Except.error` / sentinel constructors stand for any
  network failure, timeout, or malformed payload, which the Python code turns
  into the documented sentinel results via `try/except`.
* `build_profile_for_country` is parameterised by an `Env` bundling the
  results of `fetch_restcountries_df` and of `worldbank_indicator_series`,
  which in the source are cached network calls consulted inside the builder.
-/

/-! ## Numeric primitives -/
/-- Python `int()` applied to a (finite) float: truncation toward zero. -/
noncomputable def pyInt (x : ℝ) : ℤ := if 0 ≤ x then ⌊x⌋ else ⌈x⌉

/-- `np.clip(x, lo, hi)` for scalars, i.e. `min (max x lo) hi`. -/
noncomputable def npClip (x lo hi : ℝ) : ℝ := min (max x lo) hi

/-! ## Risk scorer (`compute_risk`, app.py lines 98-107) -/
/-- The weight dictionary taken by `compute_risk`. -/
structure RiskWeights where
  exports : ℝ
  growth : ℝ
  logistics : ℝ
  gdp_pc : ℝ

/-- `{"exports":0.35,"growth":0.25,"logistics":0.25,"gdp_pc":0.15}`,
substituted when `compute_risk` is called with `weights=None`. -/
noncomputable def defaultRiskWeights : RiskWeights :=
  { exports := 0.35, growth := 0.25, logistics := 0.25, gdp_pc := 0.15 }

/-- The profile fields read by `compute_risk` via `profile.get(key, default)`.
A `none` field models a dictionary that lacks the key. -/
structure RiskInput where
  exports_pct_gdp : Option ℝ
  gdp_growth : Option ℝ
  logistics : Option ℝ
  gdp_per_capita : Option ℝ

/-- `compute_risk(profile, weights=None)` from app.py lines 98-107:
    exp = profile.get('exports_pct_gdp', 20) / 100.0
    growth = max(min((5 - profile.get('gdp_growth',3))/10,1),0)
    logistics = max(min((5 - profile.get('logistics',3))/4,1),0)
    gdp_pc_norm = 1 - np.tanh(profile.get('gdp_per_capita',10000)/50000)
    raw = w['exports']*exp + w['growth']*growth
        + w['logistics']*logistics + w['gdp_pc']*gdp_pc_norm
    score = int(np.clip(raw*100, 1, 99))
-/
noncomputable def compute_risk (profile : RiskInput) (weights : Option RiskWeights) : ℤ :=
  let w := weights.getD defaultRiskWeights
  let exp := profile.exports_pct_gdp.getD 20 / 100
  let growth := max (min ((5 - profile.gdp_growth.getD 3) / 10) 1) 0
  let logistics := max (min ((5 - profile.logistics.getD 3) / 4) 1) 0
  let gdp_pc_norm := 1 - Real.tanh (profile.gdp_per_capita.getD 10000 / 50000)
  let raw := w.exports * exp + w.growth * growth + w.logistics * logistics
    + w.gdp_pc * gdp_pc_norm
  pyInt (npClip (raw * 100) 1 99)

/-! ## Suitability score (China-Plus-One advisor, app.py lines 325-329) -/
/-- `cost_idx = 1 - np.tanh(float(p.get('gdp_per_capita',5000))/50000)`
(app.py line 327). -/
noncomputable def cost_idx (gdp_per_capita : ℝ) : ℝ :=
  1 - Real.tanh (gdp_per_capita / 50000)

/-- `suitability = (priority_cost/100)*(1-cost_idx)
  + (priority_risk/100)*(1 - risk_score/100)
  + (priority_logistics/100)*(logistics/5)` (app.py line 328). -/
noncomputable def suitability (priority_cost priority_risk priority_logistics : ℝ)
    (gdp_per_capita risk_score logistics : ℝ) : ℝ :=
  (priority_cost / 100) * (1 - cost_idx gdp_per_capita)
    + (priority_risk / 100) * (1 - risk_score / 100)
    + (priority_logistics / 100) * (logistics / 5)

/-! ## The embedded fallback dataset (app.py lines 24-31) -/
/-- One row of the `FALLBACK` table. -/
structure FallbackRec where
  country : String
  iso3 : String
  population : ℤ
  gdp_growth : ℝ
  exports_pct_gdp : ℝ
  gdp_per_capita : ℝ
  logistics : ℝ
  gii : ℝ
  epi : ℝ
  currency : String

noncomputable def FB_CHINA : FallbackRec :=
  { country := "China", iso3 := "CHN", population := 1411778724,
    gdp_growth := 4.5, exports_pct_gdp := 18.0, gdp_per_capita := 12000,
    logistics := 3.3, gii := 50.1, epi := 60.2, currency := "CNY" }

noncomputable def FB_INDIA : FallbackRec :=
  { country := "India", iso3 := "IND", population := 1410000000,
    gdp_growth := 6.7, exports_pct_gdp := 12.3, gdp_per_capita := 2500,
    logistics := 3.0, gii := 35.4, epi := 42.1, currency := "INR" }

noncomputable def FB_VIETNAM : FallbackRec :=
  { country := "Vietnam", iso3 := "VNM", population := 98168229,
    gdp_growth := 6.1, exports_pct_gdp := 100.5, gdp_per_capita := 3200,
    logistics := 3.4, gii := 30.5, epi := 50.9, currency := "VND" }

noncomputable def FB_MEXICO : FallbackRec :=
  { country := "Mexico", iso3 := "MEX", population := 128932753,
    gdp_growth := 2.1, exports_pct_gdp := 38.6, gdp_per_capita := 9800,
    logistics := 3.6, gii := 39.0, epi := 64.3, currency := "MXN" }

noncomputable def FB_USA : FallbackRec :=
  { country := "United States", iso3 := "USA", population := 331893745,
    gdp_growth := 2.3, exports_pct_gdp := 11.5, gdp_per_capita := 65000,
    logistics := 4.0, gii := 60.7, epi := 71.2, currency := "USD" }

/-- The `FALLBACK` dataset, indexed by country name (`FALLBACK_DF`). -/
noncomputable def FALLBACK : List FallbackRec :=
  [FB_CHINA, FB_INDIA, FB_VIETNAM, FB_MEXICO, FB_USA]

/-! ## API constants (app.py lines 36-42) -/
def WB_GDP_GROWTH : String := "NY.GDP.MKTP.KD.ZG"

def WB_GDP_PER_CAPITA : String := "NY.GDP.PCAP.KD"

def WB_EXPORTS_PCT_GDP : String := "NE.EXP.GNFS.ZS"

/-- `EXCHANGE_FALLBACK = {"USD":1.0, "INR":83.0, "CNY":7.2, "VND":24000.0,
"MXN":17.0, "EUR":0.92}`. -/
noncomputable def EXCHANGE_FALLBACK : List (String × ℝ) :=
  [("USD", 1.0), ("INR", 83.0), ("CNY", 7.2), ("VND", 24000.0),
   ("MXN", 17.0), ("EUR", 0.92)]

/-! ## Source Registry: the three fetchers (app.py lines 47-93)
Each fetcher takes an explicit response argument; the error constructor
stands for any exception raised by the HTTP request or by JSON parsing,
which the `try/except` in the source converts into the sentinel result. -/
/-- One raw RestCountries JSON entry, restricted to the consumed keys.
`name` is `c.get('name',{}).get('common')`; `currencies` the key list of the
currency dictionary. -/
structure RCRaw where
  name : Option String
  cca3 : Option String
  population : Option ℤ
  currencies : List String

/-- One row of the dataframe built by `fetch_restcountries_df`. -/
structure RestRow where
  country : String
  iso3 : Option String
  population : Option ℤ
  currency : Option String

/-- `fetch_restcountries_df()` (app.py lines 48-69): on any exception returns
the sentinel `None`; otherwise keeps one row per entry with a truthy
(non-empty) name, taking the first currency key if any. -/
def fetch_restcountries_df (resp : Except Unit (List RCRaw)) :
    Option (List RestRow) :=
  match resp with
  | .error _ => none
  | .ok js => some (js.filterMap fun c =>
      match c.name with
      | some n =>
        if n = "" then none
        else some { country := n, iso3 := c.cca3, population := c.population,
                    currency := c.currencies.head? }
      | none => none)

/-- One raw World Bank data record: `date` and `value`, either possibly null. -/
structure WBRaw where
  date : Option ℤ
  value : Option ℝ

/-- The shape of a World Bank indicator response: an exception while fetching
or parsing (`fail`), a JSON payload that is not a list of length ≥ 2
(`notPages`), or the record list `j[1]` (`pages`). -/
inductive WBResp where
  | fail : WBResp
  | notPages : WBResp
  | pages : List WBRaw → WBResp

/-- `df[['date','value']].dropna()`: keep the entries where both the year and
the value are present. -/
def wbDropna (l : List WBRaw) : List (ℤ × ℝ) :=
  l.filterMap fun e => e.date.bind fun d => e.value.map fun v => (d, v)

/-- Comparison by year, the key of `df.sort_values('date')`. -/
def wbLE (a b : ℤ × ℝ) : Prop := a.1 ≤ b.1

instance : DecidableRel wbLE := fun a b => inferInstanceAs (Decidable (a.1 ≤ b.1))

instance : IsTotal (ℤ × ℝ) wbLE := ⟨fun a b => le_total a.1 b.1⟩

instance : IsTrans (ℤ × ℝ) wbLE := ⟨fun _ _ _ h₁ h₂ => le_trans h₁ h₂⟩

/-- `worldbank_indicator_series(iso, indicator)` (app.py lines 71-84): on an
exception or a malformed payload returns the empty series; otherwise drops
null entries and returns the series sorted ascending by year.
(The source sorts with `df.sort_values('date')`, which fixes the multiset of
entries and the ascending-by-year order; insertion sort realizes that.) -/
def worldbank_indicator_series (resp : WBResp) : List (ℤ × ℝ) :=
  match resp with
  | .fail => []
  | .notPages => []
  | .pages es => List.insertionSort wbLE (wbDropna es)

/-- `fetch_exchange_rates(base)` (app.py lines 86-93): on any exception the
empty mapping; otherwise `j.get("rates", {})`. -/
def fetch_exchange_rates (resp : Except Unit (Option (List (String × ℝ)))) :
    List (String × ℝ) :=
  match resp with
  | .error _ => []
  | .ok j => j.getD []

/-! ## Exchange-rate resolution (app.py lines 382-394) -/
/-- `dict.get(key, None)` over an association-list table. -/
def lookupRate (tbl : List (String × ℝ)) (c : String) : Option ℝ :=
  (tbl.find? fun e => e.1 == c).map (·.2)

/-- The rate-determination block (app.py lines 382-390):
    if target_currency == currency_base: rate = 1.0
    else:
        rate = rates.get(target_currency, None)
        if rate is None:
            rate = EXCHANGE_FALLBACK.get(target_currency,
                                         EXCHANGE_FALLBACK.get("INR", 83.0))
-/
noncomputable def determine_rate (rates : List (String × ℝ))
    (currency_base target_currency : String) : ℝ :=
  if target_currency = currency_base then 1.0
  else
    match lookupRate rates target_currency with
    | some r => r
    | none =>
      (lookupRate EXCHANGE_FALLBACK target_currency).getD
        ((lookupRate EXCHANGE_FALLBACK "INR").getD 83.0)

/-- `local_unit = base_price * rate` (app.py line 393). -/
noncomputable def convert (base_price rate : ℝ) : ℝ := base_price * rate

/-! ## Profile builder (`build_profile_for_country`, app.py lines 158-222) -/
/-- The profile dictionary under construction: the numeric fields that start
out as `None` are `Option`-typed. -/
structure ProfileDraft where
  country : String
  iso3 : Option String
  population : Option ℤ
  gdp_growth : Option ℝ
  exports_pct_gdp : Option ℝ
  gdp_per_capita : Option ℝ
  logistics : ℝ
  gii : ℝ
  epi : ℝ
  currency : String

/-- The finished profile returned by the builder: every numeric field is
populated and `risk_score` is attached. -/
structure Profile where
  country : String
  iso3 : Option String
  population : ℤ
  gdp_growth : ℝ
  exports_pct_gdp : ℝ
  gdp_per_capita : ℝ
  logistics : ℝ
  gii : ℝ
  epi : ℝ
  currency : String
  risk_score : ℤ

/-- Python `a or b` for an optional string `a`: `a` wins unless it is falsy
(`None` or the empty string). -/
def pyOrOptStr (a b : Option String) : Option String :=
  match a with
  | some s => if s = "" then b else some s
  | none => b

/-- `profile.get('currency') or rrow.get('currency') or "USD"` (app.py
line 186): the current string wins unless empty, then the row's currency
unless falsy, then `"USD"`. -/
def pyOrStr (a : String) (b : Option String) : String :=
  if a = "" then
    match b with
    | some c => if c = "" then "USD" else c
    | none => "USD"
  else a

/-- `int(profile.get('population') or (rrow.get('population') or 0))`
(app.py line 185): a falsy (`None` or `0`) current population falls back to
the row's population, itself defaulting to `0`. -/
def pyPopulation (p : Option ℤ) (rp : Option ℤ) : ℤ :=
  match p with
  | some v => if v = 0 then rp.getD 0 else v
  | none => rp.getD 0

/-- The RestCountries row consulted by the builder (app.py lines 182-183):
`rest_df[rest_df['country']==country_name].iloc[0]` when the frame is
available and has a matching row, nothing otherwise. -/
def restOf (rest : Option (List RestRow)) (country_name : String) :
    Option RestRow :=
  match rest with
  | none => none
  | some rows => rows.find? fun r => r.country == country_name

/-- The external data consulted by `build_profile_for_country`: the cached
result of `fetch_restcountries_df()` and, per `(iso, indicator)` pair, the
cached result of `worldbank_indicator_series(iso, indicator)`. -/
structure Env where
  rest : Option (List RestRow)
  series : String → String → List (ℤ × ℝ)

/-- Lines 160-172: the initial profile dict with its hardcoded defaults. -/
noncomputable def initDraft (country_name : String) : ProfileDraft :=
  { country := country_name, iso3 := none, population := none,
    gdp_growth := none, exports_pct_gdp := none, gdp_per_capita := none,
    logistics := 3.0, gii := 30.0, epi := 50.0, currency := "USD" }

/-- Lines 174-178: `if country_name in FALLBACK_DF.index:` overlay every
field of the fallback record onto the profile. -/
noncomputable def applyFallback (profile : ProfileDraft) : ProfileDraft :=
  match FALLBACK.find? (fun r => r.country == profile.country) with
  | some fb =>
    { profile with
      iso3 := some fb.iso3, population := some fb.population,
      gdp_growth := some fb.gdp_growth,
      exports_pct_gdp := some fb.exports_pct_gdp,
      gdp_per_capita := some fb.gdp_per_capita, logistics := fb.logistics,
      gii := fb.gii, epi := fb.epi, currency := fb.currency }
  | none => profile

/-- Lines 180-186: enrich `iso3`, `population`, `currency` from the matching
RestCountries row, if any. -/
def applyRest (profile : ProfileDraft) (rest : Option (List RestRow)) :
    ProfileDraft :=
  match restOf rest profile.country with
  | some rrow =>
    { profile with
      iso3 := pyOrOptStr profile.iso3 rrow.iso3,
      population := some (pyPopulation profile.population rrow.population),
      currency := pyOrStr profile.currency rrow.currency }
  | none => profile

/-- Lines 188-208: `iso = (profile.get('iso3') or "").lower()`; when `iso`
is truthy, overlay the last entry of each non-empty indicator series. -/
def applyIndicators (profile : ProfileDraft)
    (series : String → String → List (ℤ × ℝ)) : ProfileDraft :=
  let iso := (profile.iso3.getD "").toLower
  if iso = "" then profile
  else
    let p₁ :=
      match (series iso WB_GDP_GROWTH).getLast? with
      | some e => { profile with gdp_growth := some e.2 }
      | none => profile
    let p₂ :=
      match (series iso WB_EXPORTS_PCT_GDP).getLast? with
      | some e => { p₁ with exports_pct_gdp := some e.2 }
      | none => p₁
    match (series iso WB_GDP_PER_CAPITA).getLast? with
    | some e => { p₂ with gdp_per_capita := some e.2 }
    | none => p₂

/-- Lines 210-222: fill any still-missing numeric field with its documented
default, then attach `compute_risk` of the finished fields. -/
noncomputable def finalize (profile : ProfileDraft) : Profile :=
  let gdp_growth := profile.gdp_growth.getD 3.0
  let exports_pct_gdp := profile.exports_pct_gdp.getD 20.0
  let gdp_per_capita := profile.gdp_per_capita.getD 5000.0
  let population := profile.population.getD 1000000
  { country := profile.country, iso3 := profile.iso3,
    population := population, gdp_growth := gdp_growth,
    exports_pct_gdp := exports_pct_gdp, gdp_per_capita := gdp_per_capita,
    logistics := profile.logistics, gii := profile.gii, epi := profile.epi,
    currency := profile.currency,
    risk_score := compute_risk
      { exports_pct_gdp := some exports_pct_gdp, gdp_growth := some gdp_growth,
        logistics := some profile.logistics,
        gdp_per_capita := some gdp_per_capita } none }

/-- `build_profile_for_country(country_name)` (app.py lines 158-222), as the
composition of its statement blocks. -/
noncomputable def build_profile_for_country (env : Env) (country_name : String) :
    Profile :=
  finalize
    (applyIndicators (applyRest (applyFallback (initDraft country_name)) env.rest)
      env.series)

/-! ## Facts about `tanh` needed by the scorer proofs
Mathlib (at this version) provides `Real.tanh_eq_sinh_div_cosh` and
`Real.tanh_zero` but no monotonicity or rational bounds, so we derive them
from the exponential. -/
lemma tanh_eq_exp_form (x : ℝ) :
    Real.tanh x = (Real.exp (2 * x) - 1) / (Real.exp (2 * x) + 1) := by
  have hx : Real.exp x ≠ 0 := (Real.exp_pos x).ne'
  have h2 : Real.exp (2 * x) = Real.exp x * Real.exp x := by
    rw [two_mul, Real.exp_add]
  have hneg : Real.exp (-x) = (Real.exp x)⁻¹ := Real.exp_neg x
  have hden : Real.exp x + Real.exp (-x) ≠ 0 := by positivity
  have hden2 : Real.exp (2 * x) + 1 ≠ 0 := by positivity
  rw [Real.tanh_eq_sinh_div_cosh, Real.sinh_eq, Real.cosh_eq, h2, hneg]
  have hb : (Real.exp x + (Real.exp x)⁻¹) / 2 ≠ 0 := by positivity
  have hd : Real.exp x * Real.exp x + 1 ≠ 0 := by positivity
  rw [div_eq_div_iff hb hd]
  field_simp

lemma tanh_strictMonoOn : StrictMono Real.tanh := by
  intro x y hxy
  rw [tanh_eq_exp_form, tanh_eq_exp_form]
  have ha : (0:ℝ) < Real.exp (2 * x) := Real.exp_pos _
  have hb : (0:ℝ) < Real.exp (2 * y) := Real.exp_pos _
  have hab : Real.exp (2 * x) < Real.exp (2 * y) := by
    apply Real.exp_lt_exp.2; linarith
  rw [div_lt_div_iff (by linarith) (by linarith)]
  nlinarith

lemma tanh_le_tanh {x y : ℝ} (h : x ≤ y) : Real.tanh x ≤ Real.tanh y := by
  rcases eq_or_lt_of_le h with rfl | hlt
  · exact le_rfl
  · exact (tanh_strictMonoOn hlt).le

lemma exp_one_fifth_lt : Real.exp (1 / 5) < 11 / 9 := by
  have hpow : Real.exp 1 = Real.exp (1 / 5) ^ 5 := by
    rw [← Real.exp_nat_mul]; norm_num
  by_contra hle
  push_neg at hle
  have hp : ((11:ℝ) / 9) ^ 5 ≤ Real.exp (1 / 5) ^ 5 :=
    pow_le_pow_left (by norm_num) hle 5
  have he : Real.exp 1 < 2.7182818286 := Real.exp_one_lt_d9
  rw [hpow] at he
  have : ((11:ℝ) / 9) ^ 5 < 2.7182818286 := lt_of_le_of_lt hp he
  norm_num at this

lemma exp_one_fifth_gt : (6:ℝ) / 5 < Real.exp (1 / 5) := by
  have h := Real.add_one_lt_exp (x := (1:ℝ)/5) (by norm_num)
  linarith

lemma exp_two_fifth_lt : Real.exp (2 / 5) < 3 / 2 := by
  have h : Real.exp (2 / 5) = Real.exp (1 / 5) * Real.exp (1 / 5) := by
    rw [← Real.exp_add]; norm_num
  have h1 := exp_one_fifth_lt
  have h2 := (Real.exp_pos (1/5 : ℝ)).le
  nlinarith

lemma exp_two_fifth_gt : (7:ℝ) / 5 < Real.exp (2 / 5) := by
  have h := Real.add_one_lt_exp (x := (2:ℝ)/5) (by norm_num)
  linarith

lemma tanh_one_fifth_bounds :
    1 / 6 < Real.tanh (1 / 5) ∧ Real.tanh (1 / 5) < 1 / 5 := by
  rw [tanh_eq_exp_form]
  have h25 : (2:ℝ) * (1 / 5) = 2 / 5 := by norm_num
  rw [h25]
  have h1 := exp_two_fifth_gt
  have h2 := exp_two_fifth_lt
  have hden : (0:ℝ) < Real.exp (2 / 5) + 1 := by positivity
  constructor
  · rw [lt_div_iff hden]; linarith
  · rw [div_lt_iff hden]; linarith

lemma tanh_one_tenth_bounds :
    1 / 11 < Real.tanh (1 / 10) ∧ Real.tanh (1 / 10) < 1 / 10 := by
  rw [tanh_eq_exp_form]
  have h15 : (2:ℝ) * (1 / 10) = 1 / 5 := by norm_num
  rw [h15]
  have h1 := exp_one_fifth_gt
  have h2 := exp_one_fifth_lt
  have hden : (0:ℝ) < Real.exp (1 / 5) + 1 := by positivity
  constructor
  · rw [lt_div_iff hden]; linarith
  · rw [div_lt_iff hden]; linarith

/-! ## Generic facts about `pyInt` and `npClip` -/
lemma npClip_le_hi {x lo hi : ℝ} : npClip x lo hi ≤ hi := min_le_right _ _

lemma lo_le_npClip {x lo hi : ℝ} (h : lo ≤ hi) : lo ≤ npClip x lo hi :=
  le_min (le_max_right _ _) h

lemma npClip_mono {x y lo hi : ℝ} (h : x ≤ y) : npClip x lo hi ≤ npClip y lo hi :=
  min_le_min (max_le_max h le_rfl) le_rfl

lemma npClip_eq_self {x lo hi : ℝ} (h1 : lo ≤ x) (h2 : x ≤ hi) :
    npClip x lo hi = x := by
  unfold npClip
  rw [max_eq_left h1, min_eq_left h2]

lemma pyInt_of_nonneg {x : ℝ} (h : 0 ≤ x) : pyInt x = ⌊x⌋ := if_pos h

lemma pyInt_mono_of_nonneg {x y : ℝ} (hx : 0 ≤ x) (hxy : x ≤ y) :
    pyInt x ≤ pyInt y := by
  rw [pyInt_of_nonneg hx, pyInt_of_nonneg (le_trans hx hxy)]
  exact Int.floor_le_floor hxy

lemma pyInt_eq_of_bounds {x : ℝ} {z : ℤ} (h0 : 0 ≤ x) (h1 : (z:ℝ) ≤ x)
    (h2 : x < z + 1) : pyInt x = z := by
  rw [pyInt_of_nonneg h0, Int.floor_eq_iff]
  exact ⟨h1, h2⟩

lemma pyInt_npClip_mem (x : ℝ) :
    1 ≤ pyInt (npClip x 1 99) ∧ pyInt (npClip x 1 99) ≤ 99 := by
  have h1 : (1:ℝ) ≤ npClip x 1 99 := lo_le_npClip (by norm_num)
  have h99 : npClip x 1 99 ≤ (99:ℝ) := npClip_le_hi
  have h0 : (0:ℝ) ≤ npClip x 1 99 := by linarith
  rw [pyInt_of_nonneg h0]
  constructor
  · exact_mod_cast Int.le_floor.2 (by exact_mod_cast h1)
  · calc ⌊npClip x 1 99⌋ ≤ ⌊(99:ℝ)⌋ := Int.floor_le_floor h99
    _ = 99 := by norm_num

/-- Zeta-reduced form of `compute_risk`, for rewriting. -/
lemma compute_risk_def (p : RiskInput) (w : Option RiskWeights) :
    compute_risk p w =
      pyInt (npClip (((w.getD defaultRiskWeights).exports *
          (p.exports_pct_gdp.getD 20 / 100) +
        (w.getD defaultRiskWeights).growth *
          (max (min ((5 - p.gdp_growth.getD 3) / 10) 1) 0) +
        (w.getD defaultRiskWeights).logistics *
          (max (min ((5 - p.logistics.getD 3) / 4) 1) 0) +
        (w.getD defaultRiskWeights).gdp_pc *
          (1 - Real.tanh (p.gdp_per_capita.getD 10000 / 50000))) * 100) 1 99) :=
  rfl

/-- The score of `compute_risk` always lies in `[1, 99]`, whatever the
profile and weights. -/
lemma compute_risk_mem_Icc (p : RiskInput) (w : Option RiskWeights) :
    1 ≤ compute_risk p w ∧ compute_risk p w ≤ 99 := by
  rw [compute_risk_def]
  exact pyInt_npClip_mem _

/-! ## Claims about the risk scorer and the advisor -/
/-- C2: For every profile whose fields `exports_pct_gdp`, `gdp_growth`,
`logistics` and `gdp_per_capita` are finite real numbers, `compute_risk` with
its default weights returns an integer in the closed interval `[1, 99]`;
it never returns `0` or `100`. -/
theorem claim_C2_risk_bounded (e g l gp : ℝ) :
    1 ≤ compute_risk ⟨some e, some g, some l, some gp⟩ none ∧
      compute_risk ⟨some e, some g, some l, some gp⟩ none ≤ 99 :=
  compute_risk_mem_Icc _ _

/-- C6: `compute_risk` with default weights is monotone in
`exports_pct_gdp` (raising it never decreases the score) and antitone in
`logistics` (raising it never increases the score), all other fields fixed. -/
theorem claim_C6_risk_monotone (p : RiskInput) (a b : ℝ) (hab : a ≤ b) :
    compute_risk { p with exports_pct_gdp := some a } none ≤
      compute_risk { p with exports_pct_gdp := some b } none ∧
    compute_risk { p with logistics := some b } none ≤
      compute_risk { p with logistics := some a } none := by
  have h0 : ∀ x : ℝ, (0:ℝ) ≤ npClip x 1 99 := fun x =>
    le_trans (by norm_num) (lo_le_npClip (by norm_num))
  simp only [compute_risk_def, Option.getD_none, Option.getD_some,
    defaultRiskWeights]
  constructor
  · refine pyInt_mono_of_nonneg (h0 _) (npClip_mono ?_)
    have : a / 100 ≤ b / 100 := by linarith
    nlinarith
  · refine pyInt_mono_of_nonneg (h0 _) (npClip_mono ?_)
    have hm : max (min ((5 - b) / 4) 1) 0 ≤ max (min ((5 - a) / 4) 1) 0 :=
      max_le_max (min_le_min (by linarith) le_rfl) le_rfl
    nlinarith

/-- Witness for C6 at `a = 0`, `b = 3`, empty profile otherwise. -/
theorem claim_C6_risk_monotone_witness :
    ((0:ℝ) ≤ 3) ∧
    (compute_risk ⟨some 0, none, none, none⟩ none ≤
       compute_risk ⟨some 3, none, none, none⟩ none ∧
     compute_risk ⟨none, none, some 3, none⟩ none ≤
       compute_risk ⟨none, none, some 0, none⟩ none) :=
  ⟨by norm_num, claim_C6_risk_monotone ⟨none, none, none, none⟩ 0 3 (by norm_num)⟩

/-- The score of the all-defaults profile with `gdp_per_capita` missing
(internal default 10000): it is exactly 36. -/
lemma compute_risk_missing_gdp_pc :
    compute_risk ⟨some 20, some 3, some 3, none⟩ none = 36 := by
  rw [compute_risk_def]
  simp only [Option.getD_none, Option.getD_some, defaultRiskWeights]
  have e3 : (10000:ℝ) / 50000 = 1 / 5 := by norm_num
  rw [e3]
  obtain ⟨ht1, ht2⟩ := tanh_one_fifth_bounds
  have e1 : max (min ((5 - (3:ℝ)) / 10) 1) 0 = 1 / 5 := by
    norm_num [min_def, max_def]
  have e2 : max (min ((5 - (3:ℝ)) / 4) 1) 0 = 1 / 2 := by
    norm_num [min_def, max_def]
  rw [e1, e2]
  rw [npClip_eq_self (by linarith) (by linarith)]
  exact pyInt_eq_of_bounds (by linarith) (by push_cast; linarith)
    (by push_cast; linarith)

/-- The score of the all-defaults profile with the documented field default
`gdp_per_capita = 5000`: it is exactly 38. -/
lemma compute_risk_gdp_pc_5000 :
    compute_risk ⟨some 20, some 3, some 3, some 5000⟩ none = 38 := by
  rw [compute_risk_def]
  simp only [Option.getD_none, Option.getD_some, defaultRiskWeights]
  have e3 : (5000:ℝ) / 50000 = 1 / 10 := by norm_num
  rw [e3]
  obtain ⟨ht1, ht2⟩ := tanh_one_tenth_bounds
  have e1 : max (min ((5 - (3:ℝ)) / 10) 1) 0 = 1 / 5 := by
    norm_num [min_def, max_def]
  have e2 : max (min ((5 - (3:ℝ)) / 4) 1) 0 = 1 / 2 := by
    norm_num [min_def, max_def]
  rw [e1, e2]
  rw [npClip_eq_self (by linarith) (by linarith)]
  exact pyInt_eq_of_bounds (by linarith) (by push_cast; linarith)
    (by push_cast; linarith)

/-- C10: `compute_risk` is total over partial profiles: a missing field is
replaced by the internal defaults `exports_pct_gdp = 20`, `gdp_growth = 3`,
`logistics = 3`, `gdp_per_capita = 10000`; in particular the internal
`gdp_per_capita` default differs from the documented profile default
`5000.0`, and the two scores differ (36 versus 38). -/
theorem claim_C10_risk_internal_defaults (p : RiskInput) (w : Option RiskWeights) :
    compute_risk { p with exports_pct_gdp := none } w
      = compute_risk { p with exports_pct_gdp := some 20 } w ∧
    compute_risk { p with gdp_growth := none } w
      = compute_risk { p with gdp_growth := some 3 } w ∧
    compute_risk { p with logistics := none } w
      = compute_risk { p with logistics := some 3 } w ∧
    compute_risk { p with gdp_per_capita := none } w
      = compute_risk { p with gdp_per_capita := some 10000 } w ∧
    compute_risk ⟨some 20, some 3, some 3, none⟩ none
      ≠ compute_risk ⟨some 20, some 3, some 3, some 5000⟩ none := by
  refine ⟨rfl, rfl, rfl, rfl, ?_⟩
  rw [compute_risk_missing_gdp_pc, compute_risk_gdp_pc_5000]
  decide

/-- C1 counterexample: two advisor inputs identical except in
`gdp_per_capita` (0 versus 50000), with the default priority weights
(cost 40, risk 30, logistics 20): the lower-`gdp_per_capita` input gets a
strictly SMALLER suitability score, refuting "never strictly smaller". -/
theorem claim_C1_counterexample :
    suitability 40 30 20 0 50 3 < suitability 40 30 20 50000 50 3 := by
  have key : suitability 40 30 20 50000 50 3 - suitability 40 30 20 0 50 3
      = (40 / 100) * (Real.tanh ((50000:ℝ) / 50000) - Real.tanh ((0:ℝ) / 50000)) := by
    unfold suitability cost_idx
    ring
  have h0 : ((0:ℝ) / 50000) = 0 := by norm_num
  have h1 : ((50000:ℝ) / 50000) = 1 := by norm_num
  rw [h0, h1, Real.tanh_zero] at key
  have hpos : 0 < Real.tanh 1 := by
    have h := tanh_strictMonoOn (show (0:ℝ) < 1 by norm_num)
    rwa [Real.tanh_zero] at h
  linarith

/-- C1 amended: with the cost priority weight strictly positive and all other
advisor inputs held equal, the suitability score of the lower-`gdp_per_capita`
profile is never strictly LARGER than that of the higher one (the cost term
as implemented rewards the higher `gdp_per_capita`), so the lower one never
ranks above the higher one. -/
theorem claim_C1_amended (c r l risk logi g₁ g₂ : ℝ) (hc : 0 < c)
    (hg : g₁ ≤ g₂) :
    suitability c r l g₁ risk logi ≤ suitability c r l g₂ risk logi := by
  have ht : Real.tanh (g₁ / 50000) ≤ Real.tanh (g₂ / 50000) :=
    tanh_le_tanh (by gcongr)
  have key : suitability c r l g₂ risk logi - suitability c r l g₁ risk logi
      = (c / 100) * (Real.tanh (g₂ / 50000) - Real.tanh (g₁ / 50000)) := by
    unfold suitability cost_idx
    ring
  have h2 : 0 ≤ (c / 100) * (Real.tanh (g₂ / 50000) - Real.tanh (g₁ / 50000)) :=
    mul_nonneg (by positivity) (by linarith)
  linarith

/-- Witness for the amended C1 at cost weight 40 and
`gdp_per_capita` 0 versus 50000. -/
theorem claim_C1_amended_witness :
    (0:ℝ) < 40 ∧ (0:ℝ) ≤ 50000 ∧
    suitability 40 30 20 0 50 3 ≤ suitability 40 30 20 50000 50 3 :=
  ⟨by norm_num, by norm_num,
    claim_C1_amended 40 30 20 50 3 0 50000 (by norm_num) (by norm_num)⟩

/-! ## Claims about the fetchers and the exchange-rate resolution -/
/-- C9: each of the three fetchers is total and degrades to its sentinel on
failure: `fetch_restcountries_df` returns `None`, `worldbank_indicator_series`
returns the empty series (both on an exception and on a payload that is not a
list of length ≥ 2), and `fetch_exchange_rates` returns the empty mapping
(both on an exception and on a payload without a `"rates"` key). -/
theorem claim_C9_fetchers_degrade_to_sentinels :
    fetch_restcountries_df (Except.error ()) = none ∧
    worldbank_indicator_series WBResp.fail = [] ∧
    worldbank_indicator_series WBResp.notPages = [] ∧
    fetch_exchange_rates (Except.error ()) = [] ∧
    fetch_exchange_rates (Except.ok none) = [] :=
  ⟨rfl, rfl, rfl, rfl, rfl⟩

/-- C8: the rate resolution is total and follows the documented order:
rate `1.0` when the target currency equals the base (so the converted amount
is the input amount), else the live table's exact match, else the static
fallback entry for the target, else the fallback entry for the hardcoded
default currency `"INR"`, namely `83.0`. -/
theorem claim_C8_rate_resolution_order :
    (∀ a : ℝ, convert a 1.0 = a) ∧
    (∀ (rates : List (String × ℝ)) (base : String),
      determine_rate rates base base = 1.0) ∧
    (∀ (rates : List (String × ℝ)) (base t : String) (r : ℝ),
      t ≠ base → lookupRate rates t = some r →
      determine_rate rates base t = r) ∧
    (∀ (rates : List (String × ℝ)) (base t : String) (r : ℝ),
      t ≠ base → lookupRate rates t = none →
      lookupRate EXCHANGE_FALLBACK t = some r →
      determine_rate rates base t = r) ∧
    (∀ (rates : List (String × ℝ)) (base t : String),
      t ≠ base → lookupRate rates t = none →
      lookupRate EXCHANGE_FALLBACK t = none →
      determine_rate rates base t = 83.0) := by
  have hINR : lookupRate EXCHANGE_FALLBACK "INR" = some 83.0 := by
    simp [lookupRate, EXCHANGE_FALLBACK]
  refine ⟨fun a => by norm_num [convert], fun rates base => by
    simp [determine_rate], ?_, ?_, ?_⟩
  · intro rates base t r ht hl
    simp [determine_rate, ht, hl]
  · intro rates base t r ht hl hf
    simp [determine_rate, ht, hl, hf]
  · intro rates base t ht hl hf
    simp [determine_rate, ht, hl, hf, hINR]

/-- Witness for C8: with an empty live table, converting to `"XYZ"` (absent
from the fallback table too) from base `"USD"` resolves to `83.0`. -/
theorem claim_C8_rate_resolution_order_witness :
    ("XYZ" ≠ "USD") ∧ lookupRate [] "XYZ" = none ∧
    lookupRate EXCHANGE_FALLBACK "XYZ" = none ∧
    determine_rate [] "USD" "XYZ" = 83.0 :=
  ⟨by decide, rfl, by simp [lookupRate, EXCHANGE_FALLBACK],
    claim_C8_rate_resolution_order.2.2.2.2 [] "USD" "XYZ" (by decide) rfl
      (by simp [lookupRate, EXCHANGE_FALLBACK])⟩

/-! ## Helper lemmas about the builder steps -/
lemma toLower_empty : ("" : String).toLower = "" := by
  have h : ("" : String).toLower = ⟨("" : String).data.map Char.toLower⟩ :=
    String.map_eq Char.toLower ""
  simpa using h

lemma toLower_ne_empty {s : String} (h : s ≠ "") : s.toLower ≠ "" := by
  intro hcon
  apply h
  have hmap : s.toLower = ⟨s.data.map Char.toLower⟩ := String.map_eq Char.toLower s
  rw [hmap] at hcon
  have hdata : s.data.map Char.toLower = [] := congrArg String.data hcon
  have hnil : s.data = [] := by simpa using hdata
  cases s
  simp at hnil
  simp [hnil]

lemma initDraft_country (name : String) : (initDraft name).country = name := rfl

lemma applyFallback_of_none {p : ProfileDraft}
    (h : FALLBACK.find? (fun r => r.country == p.country) = none) :
    applyFallback p = p := by
  simp [applyFallback, h]

lemma applyFallback_of_some {p : ProfileDraft} {fb : FallbackRec}
    (h : FALLBACK.find? (fun r => r.country == p.country) = some fb) :
    applyFallback p =
      { p with
        iso3 := some fb.iso3, population := some fb.population,
        gdp_growth := some fb.gdp_growth,
        exports_pct_gdp := some fb.exports_pct_gdp,
        gdp_per_capita := some fb.gdp_per_capita, logistics := fb.logistics,
        gii := fb.gii, epi := fb.epi, currency := fb.currency } := by
  simp [applyFallback, h]

lemma applyRest_of_none {p : ProfileDraft} {rest : Option (List RestRow)}
    (h : restOf rest p.country = none) : applyRest p rest = p := by
  simp [applyRest, h]

lemma applyRest_of_some {p : ProfileDraft} {rest : Option (List RestRow)}
    {rrow : RestRow} (h : restOf rest p.country = some rrow) :
    applyRest p rest =
      { p with
        iso3 := pyOrOptStr p.iso3 rrow.iso3,
        population := some (pyPopulation p.population rrow.population),
        currency := pyOrStr p.currency rrow.currency } := by
  simp [applyRest, h]

/-- `applyRest` never touches the indicator fields, and keeps a non-falsy
`iso3`. -/
lemma applyRest_fields {p : ProfileDraft} {rest : Option (List RestRow)}
    {s : String} (hp : p.iso3 = some s) (hs : s ≠ "") :
    (applyRest p rest).iso3 = some s ∧
    (applyRest p rest).gdp_growth = p.gdp_growth ∧
    (applyRest p rest).exports_pct_gdp = p.exports_pct_gdp ∧
    (applyRest p rest).gdp_per_capita = p.gdp_per_capita ∧
    (applyRest p rest).logistics = p.logistics := by
  unfold applyRest
  cases h : restOf rest p.country with
  | none => exact ⟨hp, rfl, rfl, rfl, rfl⟩
  | some rrow =>
    refine ⟨?_, rfl, rfl, rfl, rfl⟩
    simp [pyOrOptStr, hp, hs]

lemma applyIndicators_of_no_iso {p : ProfileDraft} {series}
    (hp : p.iso3 = none) : applyIndicators p series = p := by
  simp [applyIndicators, hp, toLower_empty]

/-- `applyIndicators` when an iso3 is known: the three indicator fields take
the last entry of their series when non-empty; everything else unchanged. -/
lemma applyIndicators_fields {p : ProfileDraft} {series} {s : String}
    (hp : p.iso3 = some s) (hlow : s.toLower ≠ "") :
    (applyIndicators p series).gdp_growth
      = ((series s.toLower WB_GDP_GROWTH).getLast?.elim p.gdp_growth
          (fun e => some e.2)) ∧
    (applyIndicators p series).exports_pct_gdp
      = ((series s.toLower WB_EXPORTS_PCT_GDP).getLast?.elim p.exports_pct_gdp
          (fun e => some e.2)) ∧
    (applyIndicators p series).gdp_per_capita
      = ((series s.toLower WB_GDP_PER_CAPITA).getLast?.elim p.gdp_per_capita
          (fun e => some e.2)) ∧
    (applyIndicators p series).population = p.population ∧
    (applyIndicators p series).logistics = p.logistics := by
  unfold applyIndicators
  rw [hp]
  simp only [Option.getD_some]
  rw [if_neg hlow]
  cases h₁ : (series s.toLower WB_GDP_GROWTH).getLast? <;>
    cases h₂ : (series s.toLower WB_EXPORTS_PCT_GDP).getLast? <;>
      cases h₃ : (series s.toLower WB_GDP_PER_CAPITA).getLast? <;>
        simp

/-- `applyIndicators` never touches `population` or `logistics`. -/
lemma applyIndicators_stable {p : ProfileDraft} {series} :
    (applyIndicators p series).population = p.population ∧
    (applyIndicators p series).logistics = p.logistics := by
  unfold applyIndicators
  by_cases h : ((p.iso3.getD "").toLower) = ""
  · rw [if_pos h]; exact ⟨rfl, rfl⟩
  · rw [if_neg h]
    cases h₁ : (series ((p.iso3.getD "").toLower) WB_GDP_GROWTH).getLast? <;>
      cases h₂ : (series ((p.iso3.getD "").toLower) WB_EXPORTS_PCT_GDP).getLast? <;>
        cases h₃ : (series ((p.iso3.getD "").toLower) WB_GDP_PER_CAPITA).getLast? <;>
          simp

lemma finalize_fields (p : ProfileDraft) :
    (finalize p).gdp_growth = p.gdp_growth.getD 3.0 ∧
    (finalize p).exports_pct_gdp = p.exports_pct_gdp.getD 20.0 ∧
    (finalize p).gdp_per_capita = p.gdp_per_capita.getD 5000.0 ∧
    (finalize p).population = p.population.getD 1000000 ∧
    (finalize p).logistics = p.logistics ∧
    (finalize p).risk_score = compute_risk
      { exports_pct_gdp := some (p.exports_pct_gdp.getD 20.0),
        gdp_growth := some (p.gdp_growth.getD 3.0),
        logistics := some p.logistics,
        gdp_per_capita := some (p.gdp_per_capita.getD 5000.0) } none :=
  ⟨rfl, rfl, rfl, rfl, rfl, rfl⟩

lemma fallback_iso3_ne : ∀ fb ∈ FALLBACK, fb.iso3 ≠ "" := by
  intro fb hm
  simp only [FALLBACK, List.mem_cons, List.not_mem_nil, or_false] at hm
  rcases hm with rfl | rfl | rfl | rfl | rfl <;>
    simp [FB_CHINA, FB_INDIA, FB_VIETNAM, FB_MEXICO, FB_USA]

/-- Every record of the fallback dataset carries a positive population. -/
lemma fallback_population_pos : ∀ fb ∈ FALLBACK, 0 < fb.population := by
  intro fb hm
  simp only [FALLBACK, List.mem_cons, List.not_mem_nil, or_false] at hm
  rcases hm with rfl | rfl | rfl | rfl | rfl <;>
    simp [FB_CHINA, FB_INDIA, FB_VIETNAM, FB_MEXICO, FB_USA]

/-- In a `wbLE`-sorted list, every entry's year is at most the last one's. -/
lemma sorted_le_getLast : ∀ (l : List (ℤ × ℝ)), l.Sorted wbLE → ∀ (hne : l ≠ []),
    ∀ e ∈ l, wbLE e (l.getLast hne)
  | [], _, hne => absurd rfl hne
  | [a], _, _ => by
    intro e he
    have h : e = a := by simpa using he
    subst h
    exact le_refl e.1
  | a :: b :: t, hs, hne => by
    intro e he
    rw [List.getLast_cons (by simp)]
    rcases List.mem_cons.1 he with rfl | he'
    · exact List.rel_of_sorted_cons hs _ (List.getLast_mem _)
    · exact sorted_le_getLast (b :: t) hs.of_cons (by simp) e he'

lemma worldbank_sorted (resp : WBResp) :
    (worldbank_indicator_series resp).Sorted wbLE := by
  cases resp with
  | fail => exact List.sorted_nil
  | notPages => exact List.sorted_nil
  | pages es => exact List.sorted_insertionSort wbLE (wbDropna es)

lemma worldbank_perm (es : List WBRaw) :
    (worldbank_indicator_series (WBResp.pages es)).Perm (wbDropna es) :=
  List.perm_insertionSort wbLE (wbDropna es)

/-- The population of a built profile is the post-RestCountries draft
population, defaulted to 1000000. -/
lemma build_population (env : Env) (name : String) :
    (build_profile_for_country env name).population
      = (applyRest (applyFallback (initDraft name)) env.rest).population.getD
          1000000 := by
  unfold build_profile_for_country
  obtain ⟨hpop, -⟩ :=
    @applyIndicators_stable (applyRest (applyFallback (initDraft name)) env.rest)
      env.series
  rw [(finalize_fields _).2.2.2.1, hpop]

/-- When the country hits the fallback dataset, each of the three indicator
fields of the built profile equals the last entry of the corresponding
non-empty live series. -/
lemma build_overlay_fields (env : Env) (name : String) (fb : FallbackRec)
    (hfb : FALLBACK.find? (fun r => r.country == name) = some fb) :
    (∀ e : ℤ × ℝ,
      (env.series fb.iso3.toLower WB_GDP_GROWTH).getLast? = some e →
      (build_profile_for_country env name).gdp_growth = e.2) ∧
    (∀ e : ℤ × ℝ,
      (env.series fb.iso3.toLower WB_EXPORTS_PCT_GDP).getLast? = some e →
      (build_profile_for_country env name).exports_pct_gdp = e.2) ∧
    (∀ e : ℤ × ℝ,
      (env.series fb.iso3.toLower WB_GDP_PER_CAPITA).getLast? = some e →
      (build_profile_for_country env name).gdp_per_capita = e.2) := by
  have hne : fb.iso3 ≠ "" := fallback_iso3_ne fb (List.mem_of_find?_eq_some hfb)
  have hlow : fb.iso3.toLower ≠ "" := toLower_ne_empty hne
  have hi1 : (applyFallback (initDraft name)).iso3 = some fb.iso3 := by
    rw [applyFallback_of_some hfb]
  obtain ⟨hi2, hg2, he2, hp2, -⟩ :=
    @applyRest_fields (applyFallback (initDraft name)) env.rest fb.iso3 hi1 hne
  obtain ⟨hg3, he3, hp3, -, -⟩ :=
    @applyIndicators_fields (applyRest (applyFallback (initDraft name)) env.rest)
      env.series fb.iso3 hi2 hlow
  refine ⟨?_, ?_, ?_⟩ <;> intro e hl
  · unfold build_profile_for_country
    rw [(finalize_fields _).1, hg3, hl]
    rfl
  · unfold build_profile_for_country
    rw [(finalize_fields _).2.1, he3, hl]
    rfl
  · unfold build_profile_for_country
    rw [(finalize_fields _).2.2.1, hp3, hl]
    rfl

/-! ## Claims about the profile builder -/
/-- C3: for a country absent from the fallback dataset and from live country
metadata (so no iso3 is known and no indicator fetch occurs), the builder
returns exactly the documented defaults, with `risk_score` equal to
`compute_risk` applied to those exact default values; it never fails. -/
theorem claim_C3_unknown_country_defaults (env : Env) (name : String)
    (hfb : FALLBACK.find? (fun r => r.country == name) = none)
    (hrest : restOf env.rest name = none) :
    (build_profile_for_country env name).gdp_growth = 3.0 ∧
    (build_profile_for_country env name).exports_pct_gdp = 20.0 ∧
    (build_profile_for_country env name).gdp_per_capita = 5000.0 ∧
    (build_profile_for_country env name).population = 1000000 ∧
    (build_profile_for_country env name).logistics = 3.0 ∧
    (build_profile_for_country env name).risk_score =
      compute_risk ⟨some 20.0, some 3.0, some 3.0, some 5000.0⟩ none := by
  unfold build_profile_for_country
  rw [applyFallback_of_none hfb, applyRest_of_none hrest,
    applyIndicators_of_no_iso (p := initDraft name) rfl]
  exact ⟨rfl, rfl, rfl, rfl, rfl, rfl⟩

/-- Witness for C3 at the unknown country `"Atlantis"` with no live data. -/
theorem claim_C3_unknown_country_defaults_witness :
    FALLBACK.find? (fun r => r.country == "Atlantis") = none ∧
    restOf (none : Option (List RestRow)) "Atlantis" = none ∧
    ((build_profile_for_country ⟨none, fun _ _ => []⟩ "Atlantis").gdp_growth = 3.0 ∧
     (build_profile_for_country ⟨none, fun _ _ => []⟩ "Atlantis").exports_pct_gdp = 20.0 ∧
     (build_profile_for_country ⟨none, fun _ _ => []⟩ "Atlantis").gdp_per_capita = 5000.0 ∧
     (build_profile_for_country ⟨none, fun _ _ => []⟩ "Atlantis").population = 1000000 ∧
     (build_profile_for_country ⟨none, fun _ _ => []⟩ "Atlantis").logistics = 3.0 ∧
     (build_profile_for_country ⟨none, fun _ _ => []⟩ "Atlantis").risk_score =
       compute_risk ⟨some 20.0, some 3.0, some 3.0, some 5000.0⟩ none) := by
  have hfb : FALLBACK.find? (fun r => r.country == "Atlantis") = none := by
    simp [FALLBACK, FB_CHINA, FB_INDIA, FB_VIETNAM, FB_MEXICO, FB_USA]
  exact ⟨hfb, rfl,
    claim_C3_unknown_country_defaults ⟨none, fun _ _ => []⟩ "Atlantis" hfb rfl⟩

/-- C4: for a country present in the fallback dataset, when a live indicator
source returns a non-empty series for `gdp_growth` (and analogously for
`exports_pct_gdp` and `gdp_per_capita`), the built profile carries the live
series' latest value for that field, not the fallback or default value:
live indicator > fallback > hardcoded default. -/
theorem claim_C4_live_indicator_wins (env : Env) (name : String)
    (fb : FallbackRec)
    (hfb : FALLBACK.find? (fun r => r.country == name) = some fb) :
    (∀ e : ℤ × ℝ,
      (env.series fb.iso3.toLower WB_GDP_GROWTH).getLast? = some e →
      (build_profile_for_country env name).gdp_growth = e.2) ∧
    (∀ e : ℤ × ℝ,
      (env.series fb.iso3.toLower WB_EXPORTS_PCT_GDP).getLast? = some e →
      (build_profile_for_country env name).exports_pct_gdp = e.2) ∧
    (∀ e : ℤ × ℝ,
      (env.series fb.iso3.toLower WB_GDP_PER_CAPITA).getLast? = some e →
      (build_profile_for_country env name).gdp_per_capita = e.2) :=
  build_overlay_fields env name fb hfb

/-- Witness for C4: `"China"` is in the fallback table with
`gdp_growth = 4.5`, but a live series ending in `(2020, 9.9)` wins. -/
theorem claim_C4_live_indicator_wins_witness :
    FALLBACK.find? (fun r => r.country == "China") = some FB_CHINA ∧
    ((fun (_ _ : String) => [((2020:ℤ), (9.9:ℝ))]) FB_CHINA.iso3.toLower
        WB_GDP_GROWTH).getLast? = some ((2020:ℤ), (9.9:ℝ)) ∧
    (build_profile_for_country ⟨none, fun _ _ => [((2020:ℤ), (9.9:ℝ))]⟩
        "China").gdp_growth = 9.9 := by
  have hfb : FALLBACK.find? (fun r => r.country == "China") = some FB_CHINA := by
    simp [FALLBACK, FB_CHINA]
  refine ⟨hfb, rfl, ?_⟩
  exact (claim_C4_live_indicator_wins ⟨none, fun _ _ => [((2020:ℤ), (9.9:ℝ))]⟩
    "China" FB_CHINA hfb).1 ((2020:ℤ), (9.9:ℝ)) rfl

/-- C5 counterexample: a country known only to live metadata, with a
population entry of `0` (RestCountries reports population `0` for
uninhabited territories): no source supplied a positive population, yet the
built profile's population is `0`, not the documented default `1000000` —
the final default pass only checks for `None`. -/
theorem claim_C5_counterexample :
    (build_profile_for_country
        ⟨some [{ country := "Bouvet Island", iso3 := none,
                 population := some 0, currency := none }], fun _ _ => []⟩
        "Bouvet Island").population = 0 ∧
    (build_profile_for_country
        ⟨some [{ country := "Bouvet Island", iso3 := none,
                 population := some 0, currency := none }], fun _ _ => []⟩
        "Bouvet Island").population ≠ 1000000 := by
  have hfb : FALLBACK.find? (fun r => r.country == "Bouvet Island") = none := by
    simp [FALLBACK, FB_CHINA, FB_INDIA, FB_VIETNAM, FB_MEXICO, FB_USA]
  have hrest : restOf
      (some [{ country := "Bouvet Island", iso3 := none,
               population := some (0:ℤ), currency := none }]) "Bouvet Island"
      = some { country := "Bouvet Island", iso3 := none,
               population := some (0:ℤ), currency := none } := by
    simp [restOf]
  have h : (build_profile_for_country
      ⟨some [{ country := "Bouvet Island", iso3 := none,
               population := some 0, currency := none }], fun _ _ => []⟩
      "Bouvet Island").population = 0 := by
    rw [build_population, applyFallback_of_none hfb, applyRest_of_some hrest]
    rfl
  exact ⟨h, by rw [h]; decide⟩

/-- C5 amended: every built profile has no missing/None required numeric
field, and its population equals 1000000 whenever no source supplied a
positive population value AND no live metadata row matches the country;
when no source supplied a positive population but a live metadata row does
match, the population is that row's population defaulted to `0` — not
1000000 (the final default pass only checks for `None`).
"No source supplied a positive population" is the two hypotheses: any
matching fallback record has non-positive population (as every fallback
record's population is positive, this means there is none), and any matching
metadata row has a missing or non-positive population. -/
theorem claim_C5_amended_population (env : Env) (name : String)
    (hfb : ∀ fb : FallbackRec,
      FALLBACK.find? (fun r => r.country == name) = some fb →
      fb.population ≤ 0)
    (hrow : ∀ rrow : RestRow, restOf env.rest name = some rrow →
      rrow.population.getD 0 ≤ 0) :
    (restOf env.rest name = none →
      (build_profile_for_country env name).population = 1000000) ∧
    (∀ rrow : RestRow, restOf env.rest name = some rrow →
      (build_profile_for_country env name).population = rrow.population.getD 0 ∧
      (build_profile_for_country env name).population ≠ 1000000) := by
  have hnone : FALLBACK.find? (fun r => r.country == name) = none := by
    cases h : FALLBACK.find? (fun r => r.country == name) with
    | none => rfl
    | some fb =>
      have hpos := fallback_population_pos fb (List.mem_of_find?_eq_some h)
      have hneg := hfb fb h
      omega
  constructor
  · intro hrest
    rw [build_population, applyFallback_of_none hnone, applyRest_of_none hrest]
    rfl
  · intro rrow hrest
    have hval : (build_profile_for_country env name).population
        = rrow.population.getD 0 := by
      rw [build_population, applyFallback_of_none hnone, applyRest_of_some hrest]
      cases h : rrow.population <;> simp [h, initDraft, pyPopulation]
    refine ⟨hval, ?_⟩
    rw [hval]
    have hle := hrow rrow hrest
    omega

/-- Witness for the amended C5: `"Atlantis"` has no fallback record; unknown
to live metadata too it gets population `1000000`, while a live metadata row
with population `0` (no positive population from any source) gives `0`,
not `1000000`. -/
theorem claim_C5_amended_population_witness :
    FALLBACK.find? (fun r => r.country == "Atlantis") = none ∧
    ((some (0:ℤ)).getD 0 ≤ 0) ∧
    (build_profile_for_country ⟨none, fun _ _ => []⟩ "Atlantis").population
      = 1000000 ∧
    (build_profile_for_country
        ⟨some [{ country := "Atlantis", iso3 := none, population := some 0,
                 currency := none }], fun _ _ => []⟩ "Atlantis").population
      = 0 ∧
    (build_profile_for_country
        ⟨some [{ country := "Atlantis", iso3 := none, population := some 0,
                 currency := none }], fun _ _ => []⟩ "Atlantis").population
      ≠ 1000000 := by
  have hA : FALLBACK.find? (fun r => r.country == "Atlantis") = none := by
    simp [FALLBACK, FB_CHINA, FB_INDIA, FB_VIETNAM, FB_MEXICO, FB_USA]
  have hfb : ∀ fb : FallbackRec,
      FALLBACK.find? (fun r => r.country == "Atlantis") = some fb →
      fb.population ≤ 0 := by
    intro fb h
    rw [hA] at h
    exact Option.noConfusion h
  have hrest : restOf (some [{ country := "Atlantis", iso3 := none,
                               population := some (0:ℤ), currency := none }])
      "Atlantis"
      = some { country := "Atlantis", iso3 := none, population := some (0:ℤ),
               currency := none } := by
    simp [restOf]
  have hrow1 : ∀ rrow : RestRow,
      restOf (none : Option (List RestRow)) "Atlantis" = some rrow →
      rrow.population.getD 0 ≤ 0 := by
    intro rrow h
    exact Option.noConfusion h
  have hrow2 : ∀ rrow : RestRow,
      restOf (some [{ country := "Atlantis", iso3 := none,
                      population := some (0:ℤ), currency := none }])
        "Atlantis" = some rrow →
      rrow.population.getD 0 ≤ 0 := by
    intro rrow h
    rw [hrest] at h
    obtain rfl := Option.some.inj h
    simp
  obtain ⟨hz, hnz⟩ := (claim_C5_amended_population
    ⟨some [{ country := "Atlantis", iso3 := none, population := some 0,
             currency := none }], fun _ _ => []⟩ "Atlantis" hfb hrow2).2 _ hrest
  exact ⟨hA, by simp,
    (claim_C5_amended_population ⟨none, fun _ _ => []⟩ "Atlantis" hfb hrow1).1
      rfl, hz, hnz⟩

/-- C7: `worldbank_indicator_series` drops null entries and returns them
sorted ascending by year (a permutation of the non-null raw entries, whatever
order they arrived in), so its last entry has the maximum year; and the
builder overlays exactly that last entry's value. -/
theorem claim_C7_latest_entry_consumed (es : List WBRaw) (env : Env)
    (name : String) (fb : FallbackRec)
    (hfb : FALLBACK.find? (fun r => r.country == name) = some fb)
    (hs : env.series fb.iso3.toLower WB_GDP_GROWTH
        = worldbank_indicator_series (WBResp.pages es))
    (hne : worldbank_indicator_series (WBResp.pages es) ≠ []) :
    (worldbank_indicator_series (WBResp.pages es)).Sorted wbLE ∧
    (worldbank_indicator_series (WBResp.pages es)).Perm (wbDropna es) ∧
    (∀ e ∈ worldbank_indicator_series (WBResp.pages es),
      e.1 ≤ ((worldbank_indicator_series (WBResp.pages es)).getLast hne).1) ∧
    (build_profile_for_country env name).gdp_growth
      = ((worldbank_indicator_series (WBResp.pages es)).getLast hne).2 := by
  refine ⟨worldbank_sorted _, worldbank_perm _,
    sorted_le_getLast _ (worldbank_sorted _) hne, ?_⟩
  have hlast : (env.series fb.iso3.toLower WB_GDP_GROWTH).getLast?
      = some ((worldbank_indicator_series (WBResp.pages es)).getLast hne) := by
    rw [hs]
    exact List.getLast?_eq_getLast _ hne
  exact (build_overlay_fields env name fb hfb).1 _ hlast

/-- Witness for C7: raw entries arriving out of year order, with a null
entry; the sorted series ends with the max-year entry `(2021, 2.2)` and the
built profile for `"China"` carries `2.2`. -/
theorem claim_C7_latest_entry_consumed_witness :
    FALLBACK.find? (fun r => r.country == "China") = some FB_CHINA ∧
    worldbank_indicator_series (WBResp.pages
        [⟨some 2021, some 2.2⟩, ⟨some 2019, some 1.1⟩, ⟨some 2020, none⟩])
      = [((2019:ℤ), (1.1:ℝ)), ((2021:ℤ), (2.2:ℝ))] ∧
    (build_profile_for_country
        ⟨none, fun _ _ => worldbank_indicator_series (WBResp.pages
          [⟨some 2021, some 2.2⟩, ⟨some 2019, some 1.1⟩, ⟨some 2020, none⟩])⟩
        "China").gdp_growth = 2.2 := by
  have hfb : FALLBACK.find? (fun r => r.country == "China") = some FB_CHINA := by
    simp [FALLBACK, FB_CHINA]
  have hcomp : worldbank_indicator_series (WBResp.pages
      [⟨some 2021, some 2.2⟩, ⟨some 2019, some 1.1⟩, ⟨some 2020, none⟩])
      = [((2019:ℤ), (1.1:ℝ)), ((2021:ℤ), (2.2:ℝ))] := by
    simp [worldbank_indicator_series, wbDropna, List.insertionSort,
      List.orderedInsert, wbLE]
  have hne : worldbank_indicator_series (WBResp.pages
      [⟨some 2021, some 2.2⟩, ⟨some 2019, some 1.1⟩, ⟨some 2020, none⟩]) ≠ [] := by
    rw [hcomp]
    simp
  refine ⟨hfb, hcomp, ?_⟩
  have h := (claim_C7_latest_entry_consumed
    [⟨some 2021, some 2.2⟩, ⟨some 2019, some 1.1⟩, ⟨some 2020, none⟩]
    ⟨none, fun _ _ => worldbank_indicator_series (WBResp.pages
      [⟨some 2021, some 2.2⟩, ⟨some 2019, some 1.1⟩, ⟨some 2020, none⟩])⟩
    "China" FB_CHINA hfb rfl hne).2.2.2
  rw [h]
  have hgl : (worldbank_indicator_series (WBResp.pages
      [⟨some 2021, some 2.2⟩, ⟨some 2019, some 1.1⟩, ⟨some 2020, none⟩])).getLast
      hne = ((2021:ℤ), (2.2:ℝ)) := by
    simp [List.getLast_eq_iff_getLast?_eq_some, hcomp]
  rw [hgl]
